import Mathlib

set_option maxHeartbeats 1000000
set_option maxRecDepth 8000

/-!
Verification development for the job-scraping pipeline in `src/api.py`.

The definitions below are a shallow embedding of the Python source:
  - BeautifulSoup query results are modelled as record fields holding
    `Option`-typed values (a `find` that returns `None` is `none`);
  - Python dictionaries are association lists where a later entry for the
    same key overrides an earlier one (lookup takes the last match);
  - a Python expression that can raise is modelled in `Except Unit`, and a
    `try/except` block is an explicit match on that value;
  - network fetches are supplied as explicit functions from page index or
    attempt index to a fetch outcome, so that the control flow of the
    scraping loops can be proved about for every fetch behaviour.
-/

/-- Helper: does an `Except` computation succeed? -/
def isOkE {ε α : Type} : Except ε α → Bool
  | Except.ok _ => true
  | Except.error _ => false

/-- Python dict lookup over an association list in which later entries
override earlier ones (the semantics of building a dict then `update`). -/
def pyGet {α : Type} (d : List (String × α)) (k : String) : Option α :=
  ((d.filter (fun kv => kv.1 == k)).getLast?).map Prod.snd

/-- If `sep` is a leading segment of `l`, return the remainder. -/
def dropSep? : List Char → List Char → Option (List Char)
  | [], l => some l
  | _ :: _, [] => none
  | s :: ss, c :: cs => if c = s then dropSep? ss cs else none

/-- Worker for `pySplit`, structurally recursive on a fuel bound that
dominates the input length (the separator is non-empty at every call
site, so the fuel never runs out). -/
def pySplitAux (sep : List Char) : Nat → List Char → List Char → List (List Char)
  | _, [], cur => [cur.reverse]
  | 0, l, cur => [cur.reverse ++ l]
  | fuel + 1, c :: cs, cur =>
    match dropSep? sep (c :: cs) with
    | some rest => cur.reverse :: pySplitAux sep fuel rest []
    | none => pySplitAux sep fuel cs (c :: cur)

/-- Python `s.split(sep)` for a non-empty separator. -/
def pySplit (sep s : String) : List String :=
  (pySplitAux sep.toList s.toList.length s.toList []).map List.asString

/-- Python `s.split(":")[-1]`. -/
def lastColonSeg (s : String) : String :=
  (pySplit ":" s).getLastD ""

-- ==============================
-- LinkedIn detail page (scrape_job_page, get_job_criteria)
-- ==============================

/-- The `a.topcard__org-name-link` element: its text, and its `href`
attribute (absent attribute means `tag['href']` raises `KeyError`). -/
structure OrgLink where
  text : String
  href : Option String
deriving DecidableEq

/-- One `li.description__job-criteria-item`: its `h3` text and `span` text,
either of which may be missing (then `.get_text` raises `AttributeError`,
which `get_job_criteria` catches and skips). -/
structure CriteriaItem where
  h3 : Option String
  span : Option String
deriving DecidableEq

/-- The parsed LinkedIn job-posting document: the result of each
BeautifulSoup query issued by `scrape_job_page`. -/
structure LinkedInDoc where
  titleTag : Option String
  orgLink : Option OrgLink
  locationTag : Option String
  postedTag : Option String
  applicantsTag : Option String
  descriptionParas : Option (List String)
  criteriaItems : List CriteriaItem
deriving DecidableEq

/-- Outcome of one `requests.get` for a detail page: a parsed document with
status 200, a non-200 status, or a raised network error/timeout. -/
inductive FetchOutcome where
  | ok (doc : LinkedInDoc)
  | httpError (status : Nat)
  | netError
deriving DecidableEq

/-- A scraped record: the Python dict produced by `scrape_job_page`
(string keys to string-or-None values). -/
abbrev LnRecord := List (String × Option String)

/-- Python `key.replace(' ', '_').lower()` used on criteria headings. -/
def normKey (s : String) : String :=
  (s.replace " " "_").toLower

/-- `get_job_criteria`: collect `(h3, span)` pairs from the criteria items,
skipping any item where either part is missing (`except AttributeError:
continue`). -/
def get_job_criteria : List CriteriaItem → List (String × Option String)
  | [] => []
  | it :: rest =>
    match it.h3, it.span with
    | some k, some v => (normKey k, some v) :: get_job_criteria rest
    | _, _ => get_job_criteria rest

/-- The `company_url` entry of the record: `soup.find(...)['href'] if
soup.find(...) else None`.  When the org link exists but has no `href`
attribute the subscript raises `KeyError`. -/
def companyUrlStep (soup : LinkedInDoc) : Except Unit (Option String) :=
  match soup.orgLink with
  | none => Except.ok none
  | some org =>
    match org.href with
    | none => Except.error ()
    | some h => Except.ok (some h)

/-- Whether building the LinkedIn record raises: the only raising access is
`['href']` on a present org link without the attribute. -/
def lnNoRaise (soup : LinkedInDoc) : Bool :=
  match soup.orgLink with
  | none => true
  | some org => org.href.isSome

/-- The `company_url` value in the non-raising case. -/
def companyUrlOf (soup : LinkedInDoc) : Option String :=
  soup.orgLink.bind OrgLink.href

/-- The job-data dict built by `scrape_job_page` on a 200 response, given
the (non-raising) `company_url` value: the base dict literal, then the
optional `description` key, then the criteria entries merged by
`dict.update` (later entries override). -/
def buildJobData (jobId : String) (soup : LinkedInDoc) (companyUrl : Option String) :
    LnRecord :=
  [("job_id", some jobId),
   ("title", soup.titleTag),
   ("company", soup.orgLink.map OrgLink.text),
   ("location", soup.locationTag),
   ("posted", soup.postedTag),
   ("applicants", soup.applicantsTag),
   ("url", some ("https://www.linkedin.com/jobs/view/" ++ jobId)),
   ("company_url", companyUrl)]
  ++ (match soup.descriptionParas with
      | some ps => [("description", some (String.intercalate "\n" ps))]
      | none => [])
  ++ get_job_criteria soup.criteriaItems

/-- `scrape_job_page(job_id)` for a given fetch outcome: returns `None` on a
raised request, on a non-200 status, or when building the dict raises
(`except Exception: return None`); otherwise returns the record. -/
def scrape_job_page (jobId : String) (f : FetchOutcome) : Option LnRecord :=
  match f with
  | FetchOutcome.netError => none
  | FetchOutcome.httpError _ => none
  | FetchOutcome.ok soup =>
    match companyUrlStep soup with
    | Except.error _ => none
    | Except.ok cu => some (buildJobData jobId soup cu)

-- ==============================
-- LinkedIn listing pagination (scrape_jobs_linkedin, phase 1)
-- ==============================

/-- One `li` element of a listing page: either it lacks the `base-card`
div (then `.get` on `None` raises `AttributeError`), or it has the div with
an optional `data-entity-urn` attribute (`.get(..., '')` defaults to `''`). -/
inductive LiCard where
  | noDiv
  | withDiv (urn : Option String)
deriving DecidableEq

/-- Outcome of one listing-page `requests.get`. -/
inductive PageFetch where
  | ok (lis : List LiCard)
  | httpStatus (code : Nat)
  | raised
deriving DecidableEq

/-- The id-collection loop over the `li` elements of one page: appends the
last colon segment of each urn when non-empty (the walrus `if job_id :=`),
and raises on a card without the `base-card` div. -/
def collectIds : List LiCard → Except Unit (List String)
  | [] => Except.ok []
  | LiCard.noDiv :: _ => Except.error ()
  | LiCard.withDiv u :: rest =>
    match collectIds rest with
    | Except.error e => Except.error e
    | Except.ok ids =>
      let jid := lastColonSeg (u.getD "")
      Except.ok (if jid = "" then ids else jid :: ids)

/-- Processing of one listing page inside the `try` of the pagination loop:
any raised request, any non-200 status (the raised `HTTPException`), or any
raise while collecting ids is caught by `except Exception` and re-raised as
an `HTTPException` with status 500. -/
def processPage : PageFetch → Except Nat (List String)
  | PageFetch.raised => Except.error 500
  | PageFetch.httpStatus _ => Except.error 500
  | PageFetch.ok lis =>
    match collectIds lis with
    | Except.error _ => Except.error 500
    | Except.ok ids => Except.ok ids

/-- The pagination loop from page index `page` for `k` more pages: returns
the trace of page indices actually fetched and either the collected ids in
order or the first raised error. -/
def lnPaginate (fetch : Nat → PageFetch) : Nat → Nat → List Nat × Except Nat (List String)
  | _, 0 => ([], Except.ok [])
  | page, k + 1 =>
    match processPage (fetch page) with
    | Except.error s => ([page], Except.error s)
    | Except.ok ids =>
      let r := lnPaginate fetch (page + 1) k
      (page :: r.1, r.2.map (fun rest => ids ++ rest))

-- ==============================
-- LinkedIn detail retry loop (scrape_jobs_linkedin, phase 2)
-- ==============================

/-- `settings["max_retries"]` in `scrape_jobs_linkedin`. -/
def max_retries : Nat := 3

/-- The `for attempt in range(n)` retry loop: try attempts starting at
index `i` with `n` attempts remaining; on the first success return the
value together with the 1-based attempt number. -/
def attemptLoop {α : Type} (tryOnce : Nat → Option α) : Nat → Nat → Option (α × Nat)
  | _, 0 => none
  | i, n + 1 =>
    match tryOnce i with
    | some r => some (r, i + 1)
    | none => attemptLoop tryOnce (i + 1) n

/-- Resolving one job id: up to `max_retries` calls of `scrape_job_page`,
with the fetch outcome of attempt `i` given by `dfetch jid i`. -/
def resolveDetail (dfetch : String → Nat → FetchOutcome) (jid : String) :
    Option (LnRecord × Nat) :=
  attemptLoop (fun i => scrape_job_page jid (dfetch jid i)) 0 max_retries

/-- Logger events emitted by the detail loop. -/
inductive LnEvent where
  | infoScraped (jid : String)
  | warnExhausted (jid : String)
deriving DecidableEq

/-- The detail loop over all discovered ids: collects the resolved records
in discovery order, logging an info event per success and a warning event
per id whose retries are exhausted (that id is dropped). -/
def resolveAll (dfetch : String → Nat → FetchOutcome) :
    List String → List LnRecord × List LnEvent
  | [] => ([], [])
  | jid :: rest =>
    let r := resolveAll dfetch rest
    match resolveDetail dfetch jid with
    | some (rec, _) => (rec :: r.1, LnEvent.infoScraped jid :: r.2)
    | none => (r.1, LnEvent.warnExhausted jid :: r.2)

/-- `scrape_jobs_linkedin`: paginate, then resolve every discovered id;
a pagination failure escapes as an error, the detail loop never fails. -/
def scrape_jobs_linkedin (fetch : Nat → PageFetch)
    (dfetch : String → Nat → FetchOutcome) (pages : Nat) :
    Except Nat (List LnRecord × List LnEvent) :=
  match (lnPaginate fetch 0 pages).2 with
  | Except.error s => Except.error s
  | Except.ok ids => Except.ok (resolveAll dfetch ids)

-- ==============================
-- Response packaging (StandardResponse, endpoints)
-- ==============================

/-- The `StandardResponse` schema returned by both endpoints: a success
flag, a message, one count, and the data list. -/
structure StandardResponse (α : Type) where
  success : Bool
  message : Option String
  count : Nat
  data : List α
deriving DecidableEq

/-- `{"platform": ..., **job}`: the platform entry first, then the record
entries (which override it on key collision under `pyGet`). -/
def addPlatform (platform : String) (job : LnRecord) : LnRecord :=
  ("platform", some platform) :: job

/-- The `/api/v1/jobs/linkedin` endpoint body: any exception from
`scrape_jobs_linkedin` is converted to a 500 error; otherwise the records
are wrapped in a `StandardResponse`. -/
def scrape_linkedin_jobs (fetch : Nat → PageFetch)
    (dfetch : String → Nat → FetchOutcome) (pages : Nat) :
    Except Nat (StandardResponse LnRecord) :=
  match scrape_jobs_linkedin fetch dfetch pages with
  | Except.error _ => Except.error 500
  | Except.ok r =>
    Except.ok
      { success := true,
        message := some ("Found " ++ toString r.1.length ++ " LinkedIn jobs"),
        count := r.1.length,
        data := r.1.map (addPlatform "LinkedIn") }

-- ==============================
-- Indeed detail extraction (get_job_details)
-- ==============================

/-- The `a.jcs-JobTitle` link on an Indeed job card: its `data-jk`
attribute (absent gives `''` via `.get('data-jk', '')`) and its text. -/
structure JobLink where
  dataJk : Option String
  text : String
deriving DecidableEq

/-- One Indeed job card (`div.job_seen_beacon`). -/
structure IndeedCard where
  jobLink : Option JobLink
deriving DecidableEq

/-- The parsed Indeed job-detail page: each field is the result of one
BeautifulSoup query issued by `get_job_details`.  A nested
`Option (Option String)` models a tag that can be missing (outer) whose
attribute subscript can raise `KeyError` (inner `none`), and for the
benefits heading whose `find_next("ul")` can return `None` (then `.text`
raises `AttributeError`). -/
structure IndeedDetailDoc where
  ogDescription : Option (Option String)
  titleTag : Option String
  ogImage : Option (Option String)
  remoteBadge : Bool
  jobDescription : Option String
  payTag : Option String
  pageStrings : List String
  benefitsHeader : Option (Option String)
  ogUrl : Option (Option String)
deriving DecidableEq

/-- The normalized record built by `get_job_details` (its fixed key set). -/
structure IndeedDetails where
  job_id : String
  title : String
  company : Option String
  location : Option String
  salary : String
  posted : String
  job_url : String
  company_rating : String
  job_type : String
  shift : String
  benefits : String
  is_remote : Bool
  is_urgent : Bool
  job_snippet : String
  experience_level : String
  work_model : String
  image_link : Option String
  apply_link : String
deriving DecidableEq

/-- The template dict initialised at the top of `get_job_details`. -/
def detailsTemplate : IndeedDetails :=
  { job_id := "", title := "", company := some "", location := some "",
    salary := "", posted := "", job_url := "", company_rating := "",
    job_type := "", shift := "", benefits := "", is_remote := false,
    is_urgent := false, job_snippet := "", experience_level := "",
    work_model := "On-site", image_link := some "", apply_link := "" }

/-- The first block of `get_job_details`: if the card has the title link,
set `job_id`, `job_url` and `title` from it. -/
def cardStep (card : IndeedCard) (d : IndeedDetails) : IndeedDetails :=
  match card.jobLink with
  | none => d
  | some lnk =>
    let jid := lnk.dataJk.getD ""
    { d with job_id := jid,
             job_url := "https://in.indeed.com/viewjob?jk=" ++ jid,
             title := lnk.text }

/-- `details['company']`: `soup.find("meta", og:description)["content"]` if
the meta is found, else `None`; raises `KeyError` when the meta exists but
lacks `content`. -/
def companyVal (s : IndeedDetailDoc) : Except Unit (Option String) :=
  match s.ogDescription with
  | none => Except.ok none
  | some none => Except.error ()
  | some (some c) => Except.ok (some c)

/-- `details['location']`: `soup.find("title").text.split(" - ")[1]` if the
title tag is found, else `None`; raises `IndexError` when the title text
has no second `" - "` segment. -/
def locationVal (s : IndeedDetailDoc) : Except Unit (Option String) :=
  match s.titleTag with
  | none => Except.ok none
  | some t =>
    match (pySplit " - " t).get? 1 with
    | none => Except.error ()
    | some seg => Except.ok (some seg)

/-- `details['image_link']`: the og:image `content`, else `None`; raises
`KeyError` when the meta exists but lacks `content`. -/
def imageVal (s : IndeedDetailDoc) : Except Unit (Option String) :=
  match s.ogImage with
  | none => Except.ok none
  | some none => Except.error ()
  | some (some c) => Except.ok (some c)

/-- `details['job_snippet']`: description text or `"Not Provided"`. -/
def snippetVal (s : IndeedDetailDoc) : String :=
  match s.jobDescription with
  | some t => t
  | none => "Not Provided"

/-- `details['salary']`: the stripped pay string or `"Not mentioned"`. -/
def salaryVal (s : IndeedDetailDoc) : String :=
  match s.payTag with
  | some t => t.trim
  | none => "Not mentioned"

/-- The job-type option strings searched for on the page. -/
def job_type_options : List String :=
  ["Full-time", "Part-time", "Internship", "Permanent", "Contract"]

/-- The shift option strings searched for on the page. -/
def shift_options : List String :=
  ["Day shift", "Night shift", "Rotational shift", "Fixed shift"]

/-- `", ".join(matching options)` or `"Not mentioned"` when none match. -/
def joinFound (opts : List String) (pageStrings : List String) : String :=
  let fs := opts.filter (fun o => pageStrings.contains o)
  if fs.isEmpty then "Not mentioned" else String.intercalate ", " fs

/-- `details['benefits']`: `benefits_header.find_next("ul").text` if the
header string is found, else `"Not mentioned"`; raises `AttributeError`
when the header is found but no `ul` follows. -/
def benefitsVal (s : IndeedDetailDoc) : Except Unit String :=
  match s.benefitsHeader with
  | none => Except.ok "Not mentioned"
  | some none => Except.error ()
  | some (some ul) => Except.ok ul

/-- `details['apply_link']`: the og:url `content` or `"Not found"`; raises
`KeyError` when the meta exists but lacks `content`. -/
def applyVal (s : IndeedDetailDoc) : Except Unit String :=
  match s.ogUrl with
  | none => Except.ok "Not found"
  | some none => Except.error ()
  | some (some c) => Except.ok c

/-- The field assignments of `get_job_details` after a successful
navigation, applied in source order to the partially filled record; the
surrounding `try/except Exception: pass` means the record accumulated so
far is returned at the first raising assignment. -/
def afterNav (soup : IndeedDetailDoc) (d : IndeedDetails) : IndeedDetails :=
  match companyVal soup with
  | Except.error _ => d
  | Except.ok c =>
    let d := { d with company := c }
    match locationVal soup with
    | Except.error _ => d
    | Except.ok lv =>
      let d := { d with location := lv }
      match imageVal soup with
      | Except.error _ => d
      | Except.ok iv =>
        let d := { d with image_link := iv,
                          is_remote := soup.remoteBadge,
                          job_snippet := snippetVal soup,
                          salary := salaryVal soup,
                          job_type := joinFound job_type_options soup.pageStrings,
                          shift := joinFound shift_options soup.pageStrings }
        match benefitsVal soup with
        | Except.error _ => d
        | Except.ok bv =>
          let d := { d with benefits := bv }
          match applyVal soup with
          | Except.error _ => d
          | Except.ok av => { d with apply_link := av }

/-- `get_job_details(driver, job_card)`: fill in the card fields, navigate
to the detail url (`nav` is the navigation outcome of `driver.get`; an
error there is caught by the `except` and the card-only record returned),
then run the extraction sequence. -/
def get_job_details (card : IndeedCard) (nav : Except Unit IndeedDetailDoc) :
    IndeedDetails :=
  let d := cardStep card detailsTemplate
  match nav with
  | Except.error _ => d
  | Except.ok soup => afterNav soup d

/-- Are all the raising extraction steps of `get_job_details` non-raising
on this document? -/
def stepsOk (s : IndeedDetailDoc) : Bool :=
  isOkE (companyVal s) && isOkE (locationVal s) && isOkE (imageVal s)
    && isOkE (benefitsVal s) && isOkE (applyVal s)

/-- Modelled from the spec ("every extraction is independently
fault-isolated so one missing field never aborts the record"): the
extractor the spec describes, in which every field is extracted
independently and a missing or raising extraction degrades only its own
field to its absent sentinel. -/
def specExtract (card : IndeedCard) (soup : IndeedDetailDoc) : IndeedDetails :=
  let d := cardStep card detailsTemplate
  { d with
    company := match companyVal soup with
               | Except.ok v => v
               | Except.error _ => none,
    location := match locationVal soup with
                | Except.ok v => v
                | Except.error _ => none,
    image_link := match imageVal soup with
                  | Except.ok v => v
                  | Except.error _ => none,
    is_remote := soup.remoteBadge,
    job_snippet := snippetVal soup,
    salary := salaryVal soup,
    job_type := joinFound job_type_options soup.pageStrings,
    shift := joinFound shift_options soup.pageStrings,
    benefits := match benefitsVal soup with
                | Except.ok v => v
                | Except.error _ => "Not mentioned",
    apply_link := match applyVal soup with
                  | Except.ok v => v
                  | Except.error _ => "Not found" }

-- ==============================
-- Indeed listing loop (scrape_indeed) and endpoint
-- ==============================

/-- `PAGES_TO_SCRAPE` module constant. -/
def PAGES_TO_SCRAPE : Nat := 1

/-- `BASE_URL` module constant. -/
def BASE_URL : String := "https://in.indeed.com/jobs"

/-- Outcome of loading one Indeed listing page in the browser: the job
cards found on it (each paired with the navigation outcome of its detail
fetch inside `get_job_details`), or a raised exception. -/
inductive IndeedPageFetch where
  | ok (cards : List (IndeedCard × Except Unit IndeedDetailDoc))
  | raised

/-- The page loop of `scrape_indeed` from page index `page` with `k` pages
remaining: on a raise anywhere in the loop body the `except` block catches
it and the listings collected so far are returned. -/
def scrapeIndeedGo (fetch : Nat → IndeedPageFetch) : Nat → Nat → List IndeedDetails
  | _, 0 => []
  | page, k + 1 =>
    match fetch page with
    | IndeedPageFetch.raised => []
    | IndeedPageFetch.ok cards =>
      cards.map (fun c => get_job_details c.1 c.2) ++ scrapeIndeedGo fetch (page + 1) k

/-- `scrape_indeed(filters)`: iterate `PAGES_TO_SCRAPE` pages and return
the collected listings; the function always returns a list, never an
error. -/
def scrape_indeed (fetch : Nat → IndeedPageFetch) : List IndeedDetails :=
  scrapeIndeedGo fetch 0 PAGES_TO_SCRAPE

/-- The trace of listing-page indices actually fetched by `scrape_indeed`
(a raised fetch still counts as issued, and ends the loop). -/
def indeedPagesFetchedGo (fetch : Nat → IndeedPageFetch) : Nat → Nat → List Nat
  | _, 0 => []
  | page, k + 1 =>
    match fetch page with
    | IndeedPageFetch.raised => [page]
    | IndeedPageFetch.ok _ => page :: indeedPagesFetchedGo fetch (page + 1) k

/-- The trace of listing pages fetched in one Indeed run. -/
def indeedPagesFetched (fetch : Nat → IndeedPageFetch) : List Nat :=
  indeedPagesFetchedGo fetch 0 PAGES_TO_SCRAPE

/-- One entry of the Indeed endpoint's `data`: `{"platform": "Indeed",
**job}`; the job's fixed key set never contains `platform`. -/
structure IndeedApiJob where
  platform : String
  detail : IndeedDetails
deriving DecidableEq

/-- The `data` list of the Indeed endpoint response. -/
def indeedResponseData (jobs : List IndeedDetails) : List IndeedApiJob :=
  jobs.map (fun j => { platform := "Indeed", detail := j })

/-- The `/api/v1/jobs/indeed` endpoint body: `scrape_indeed` never raises,
so the endpoint always returns a success response wrapping its list. -/
def scrape_indeed_jobs (fetch : Nat → IndeedPageFetch) :
    StandardResponse IndeedApiJob :=
  let jobs := scrape_indeed fetch
  { success := true,
    message := some ("Found " ++ toString jobs.length ++ " Indeed jobs"),
    count := jobs.length,
    data := indeedResponseData jobs }

-- ==============================
-- Query construction (filters, urlencode)
-- ==============================

/-- The Indeed request model (`IndeedSearchParams`): note it has no
page-count field. -/
structure IndeedSearchParams where
  job_title : String
  location : Option String
  days_posted : Option Int
  radius : Option Int
  job_type : Option String
  sort_by : Option String
  experience_level : Option String
  remote : Option String
deriving DecidableEq

/-- An Indeed request in which only the required `job_title` is set and
every other field keeps its pydantic default. -/
def mkIndeedParams (title : String) : IndeedSearchParams :=
  { job_title := title, location := none, days_posted := some 7,
    radius := some 50, job_type := some "fulltime", sort_by := some "date",
    experience_level := none, remote := none }

/-- The filter dict built in `scrape_indeed_jobs` with `None` values
removed. -/
def indeedFilters (p : IndeedSearchParams) : List (String × String) :=
  [("q", some p.job_title), ("l", p.location),
   ("fromage", p.days_posted.map toString),
   ("radius", p.radius.map toString),
   ("jt", p.job_type), ("sort", p.sort_by),
   ("explvl", p.experience_level), ("remote", p.remote)].filterMap
    (fun kv => kv.2.map (fun v => (kv.1, v)))

/-- Is a character in the always-safe set of Python's `quote_plus`
(ASCII letters, digits, and `_.-~`)? -/
def alwaysSafe (c : Char) : Bool :=
  c.isAlpha || c.isDigit || c = '_' || c = '.' || c = '-' || c = '~'

/-- One hex digit, upper case, as used by `quote`. -/
def hexDigitChar (n : Nat) : Char :=
  if n < 10 then Char.ofNat (48 + n) else Char.ofNat (55 + n)

/-- Percent-encode one byte. -/
def byteHex (b : Nat) : String :=
  String.mk ['%', hexDigitChar (b / 16), hexDigitChar (b % 16)]

/-- The UTF-8 bytes of one character. -/
def utf8Bytes (c : Char) : List Nat :=
  let n := c.toNat
  if n < 128 then [n]
  else if n < 2048 then [192 + n / 64, 128 + n % 64]
  else if n < 65536 then [224 + n / 4096, 128 + (n / 64) % 64, 128 + n % 64]
  else [240 + n / 262144, 128 + (n / 4096) % 64, 128 + (n / 64) % 64, 128 + n % 64]

/-- Python `urllib.parse.quote_plus`: spaces become `+`, safe characters
pass through, every other character is percent-encoded over its UTF-8
bytes. -/
def quote_plus (s : String) : String :=
  String.join (s.toList.map (fun c =>
    if c = ' ' then "+"
    else if alwaysSafe c then String.singleton c
    else String.join ((utf8Bytes c).map byteHex)))

/-- Encode one key/value pair of a query string. -/
def encPair (kv : String × String) : String :=
  quote_plus kv.1 ++ "=" ++ quote_plus kv.2

/-- Python `urllib.parse.urlencode` over a dict of string pairs. -/
def urlencode (pairs : List (String × String)) : String :=
  String.intercalate "&" (pairs.map encPair)

/-- The pairs sent for one Indeed listing page: the filters plus the
`start` offset added in `scrape_indeed`. -/
def indeedPagePairs (p : IndeedSearchParams) (page : Nat) : List (String × String) :=
  indeedFilters p ++ [("start", toString (page * 10))]

/-- The listing url fetched by `scrape_indeed` for one page. -/
def indeedPageUrl (p : IndeedSearchParams) (page : Nat) : String :=
  BASE_URL ++ "?" ++ urlencode (indeedPagePairs p page)

/-- The LinkedIn request model (`LinkedInSearchParams`). -/
structure LinkedInSearchParams where
  keywords : String
  location : Option String
  remote : Option String
  experience_level : Option String
  job_type : Option String
  time_posted : Option String
  pages : Nat
deriving DecidableEq

/-- A LinkedIn request in which only the required `keywords` is set and
every other field keeps its pydantic default. -/
def mkLinkedInParams (kw : String) : LinkedInSearchParams :=
  { keywords := kw, location := none, remote := none,
    experience_level := none, job_type := none, time_posted := none,
    pages := 1 }

/-- `params.dict()` plus the `start` offset, as passed to `requests.get`
for one LinkedIn listing page (`None` values included at this point). -/
def linkedinRequestParams (p : LinkedInSearchParams) (page : Nat) :
    List (String × Option String) :=
  [("keywords", some p.keywords), ("location", p.location),
   ("remote", p.remote), ("experience_level", p.experience_level),
   ("job_type", p.job_type), ("time_posted", p.time_posted),
   ("pages", some (toString p.pages)),
   ("start", some (toString (page * 25)))]

/-- The `requests` library drops parameters whose value is `None` when
encoding `params`. -/
def requestsEncode (l : List (String × Option String)) : List (String × String) :=
  l.filterMap (fun kv => kv.2.map (fun v => (kv.1, v)))

/-- The query components `requests` sends for one LinkedIn listing page. -/
def linkedinQueryComponents (p : LinkedInSearchParams) (page : Nat) : List String :=
  (requestsEncode (linkedinRequestParams p page)).map encPair

/-- The query components of one Indeed listing url. -/
def indeedQueryComponents (p : IndeedSearchParams) (page : Nat) : List String :=
  (indeedPagePairs p page).map encPair

-- ==============================
-- Human-like interaction (human_like_interaction)
-- ==============================

/-- `human_like_interaction(driver)`: the initial
`actions.move_by_offset(10, 10).perform()` is not inside any `try`, so a
raise there escapes to the caller; each iteration of the two following
loops is wrapped in `try/except: pass`, so its failures are swallowed and
the loops run to completion.  The arguments are the outcome of the initial
move and the outcomes of the bodies of the two loops (`randint(2, 4)` and
`randint(3, 5)` iterations); the result reports how many iterations of
each loop ran. -/
def human_like_interaction (initialMove : Except Unit Unit)
    (moveIters : List (Except Unit Unit)) (scrollIters : List (Except Unit Unit)) :
    Except Unit (Nat × Nat) :=
  match initialMove with
  | Except.error e => Except.error e
  | Except.ok _ => Except.ok (moveIters.length, scrollIters.length)

/-- The dict keys contributed by the criteria items. -/
def criteriaKeys (items : List CriteriaItem) : List String :=
  (get_job_criteria items).map Prod.fst

/-- No criteria heading normalizes to one of the record's core keys (if
one did, `job_data.update(criteria)` or the `platform` merge would let it
override that core field). -/
def noCollision (soup : LinkedInDoc) : Bool :=
  !((criteriaKeys soup.criteriaItems).any
    (fun k => k == "platform" || k == "job_id" || k == "url"))

-- ==============================
-- Concrete fixtures
-- ==============================

/-- A minimal well-formed LinkedIn detail document. -/
def docEngineer : LinkedInDoc :=
  { titleTag := some "Engineer", orgLink := none, locationTag := none,
    postedTag := none, applicantsTag := none, descriptionParas := none,
    criteriaItems := [] }

/-- A detail fetcher for which id `1001` always resolves and every other
id always fails. -/
def only1001Fetcher : String → Nat → FetchOutcome :=
  fun jid _ => if jid = "1001" then FetchOutcome.ok docEngineer
    else FetchOutcome.netError

/-- A listing fetcher whose every page holds the single listing `1001`. -/
def oneIdListing : Nat → PageFetch :=
  fun _ => PageFetch.ok [LiCard.withDiv (some "urn:li:jobPosting:1001")]

/-- A listing fetcher whose every page holds listings `1001` and `1002`. -/
def twoIdListing : Nat → PageFetch :=
  fun _ => PageFetch.ok
    [LiCard.withDiv (some "urn:li:jobPosting:1001"),
     LiCard.withDiv (some "urn:li:jobPosting:1002")]

/-- An Indeed job card with a title link. -/
def cardDev : IndeedCard :=
  { jobLink := some { dataJk := some "j1", text := "Dev" } }

/-- An Indeed job card without an `a.jcs-JobTitle` link. -/
def cardNoLink : IndeedCard :=
  { jobLink := none }

/-- An Indeed detail document whose page title has no `" - "` separator,
so the location extraction (`.split(" - ")[1]`) raises `IndexError`, while
the og:image meta is present with a content url. -/
def soupLocRaise : IndeedDetailDoc :=
  { ogDescription := some (some "Acme is hiring"),
    titleTag := some "NoSeparatorTitle",
    ogImage := some (some "https://img.example/logo.png"),
    remoteBadge := true, jobDescription := some "desc",
    payTag := none, pageStrings := ["Full-time"],
    benefitsHeader := none,
    ogUrl := some (some "https://in.indeed.com/viewjob?jk=j1") }

/-- An Indeed detail document missing the og:description meta (so the
company extraction runs but does not match) and whose other extractions
run without raising. -/
def soupNoCompany : IndeedDetailDoc :=
  { ogDescription := none, titleTag := some "Dev Job - Remote",
    ogImage := none, remoteBadge := false, jobDescription := none,
    payTag := none, pageStrings := [], benefitsHeader := none,
    ogUrl := none }

/-- An Indeed listing page holding one job card without a title link,
whose detail navigation raises (`driver.get` of the empty url). -/
def noLinkPage : Nat → IndeedPageFetch :=
  fun _ => IndeedPageFetch.ok [(cardNoLink, Except.error ())]

-- ==============================
-- Helper lemmas
-- ==============================

theorem isOkE_iff {ε α : Type} (e : Except ε α) :
    isOkE e = true ↔ ∃ a, e = Except.ok a := by
  cases e <;> simp [isOkE]

theorem attemptLoop_succ_at {α : Type} (t : Nat → Option α) (r : α) :
    ∀ (k i n : Nat), (∀ j, j < k → t (i + j) = none) → t (i + k) = some r →
      attemptLoop t i n = if k < n then some (r, i + k + 1) else none := by
  intro k
  induction k with
  | zero =>
    intro i n hfail hsucc
    cases n with
    | zero => simp [attemptLoop]
    | succ m =>
      simp only [attemptLoop]
      simp only [Nat.add_zero] at hsucc
      simp [hsucc, Nat.succ_pos]
  | succ k ih =>
    intro i n hfail hsucc
    cases n with
    | zero => simp [attemptLoop]
    | succ m =>
      have h0 : t i = none := by
        have := hfail 0 (Nat.succ_pos k)
        simpa using this
      have hfail' : ∀ j, j < k → t (i + 1 + j) = none := by
        intro j hj
        have := hfail (j + 1) (by omega)
        have harith : i + (j + 1) = i + 1 + j := by omega
        rwa [harith] at this
      have hsucc' : t (i + 1 + k) = some r := by
        have harith : i + (k + 1) = i + 1 + k := by omega
        rwa [harith] at hsucc
      simp only [attemptLoop, h0]
      rw [ih (i + 1) m hfail' hsucc']
      have harith : i + 1 + k + 1 = i + (k + 1) + 1 := by omega
      by_cases hkm : k < m
      · simp [hkm, Nat.succ_lt_succ hkm, harith]
      · simp [hkm, fun h => hkm (Nat.lt_of_succ_lt_succ h)]

theorem attemptLoop_all_fail {α : Type} (t : Nat → Option α) :
    ∀ (n i : Nat), (∀ j, j < n → t (i + j) = none) → attemptLoop t i n = none := by
  intro n
  induction n with
  | zero => intro i _; simp [attemptLoop]
  | succ m ih =>
    intro i hfail
    have h0 : t i = none := by simpa using hfail 0 (Nat.succ_pos m)
    simp only [attemptLoop, h0]
    apply ih (i + 1)
    intro j hj
    have hh := hfail (j + 1) (by omega)
    have harith : i + (j + 1) = i + 1 + j := by omega
    rwa [harith] at hh

-- ==============================
-- Claim theorems
-- ==============================

/-- C2: if the detail fetch for a listing id fails exactly `k` times and
then succeeds, the detail resolver (with `max_retries = 3` configured)
produces a record iff `k < max_retries`, and when it does, the record is
the one of the successful attempt, obtained on attempt number `k + 1`. -/
theorem detail_resolver_retries (dfetch : String → Nat → FetchOutcome)
    (jid : String) (k : Nat) (rec : LnRecord)
    (hfail : ∀ i, i < k → scrape_job_page jid (dfetch jid i) = none)
    (hsucc : scrape_job_page jid (dfetch jid k) = some rec) :
    ((resolveDetail dfetch jid).isSome ↔ k < max_retries)
      ∧ (k < max_retries → resolveDetail dfetch jid = some (rec, k + 1))
      ∧ (max_retries ≤ k → resolveDetail dfetch jid = none) := by
  have hmain := attemptLoop_succ_at (fun i => scrape_job_page jid (dfetch jid i)) rec k 0
      max_retries (by intro j hj; simpa using hfail j hj) (by simpa using hsucc)
  unfold resolveDetail
  rw [hmain]
  by_cases hk : k < max_retries
  · simp [hk]
  · simp [hk, Nat.le_of_not_lt hk]

/-- C2 witness: with a fetcher that fails once then succeeds, the record
resolves on attempt 2. -/
theorem detail_resolver_retries_witness :
    resolveDetail
      (fun _ i => if i = 0 then FetchOutcome.netError
        else FetchOutcome.ok
          { titleTag := some "Engineer", orgLink := none, locationTag := none,
            postedTag := none, applicantsTag := none, descriptionParas := none,
            criteriaItems := [] })
      "1001"
    = some (buildJobData "1001"
        { titleTag := some "Engineer", orgLink := none, locationTag := none,
          postedTag := none, applicantsTag := none, descriptionParas := none,
          criteriaItems := [] } none, 2) :=
  ((detail_resolver_retries
      (fun _ i => if i = 0 then FetchOutcome.netError
        else FetchOutcome.ok
          { titleTag := some "Engineer", orgLink := none, locationTag := none,
            postedTag := none, applicantsTag := none, descriptionParas := none,
            criteriaItems := [] })
      "1001" 1 _
      (by intro i hi; have h0 : i = 0 := by omega
          subst h0; rfl)
      (by rfl)).2.1) (by decide)

theorem resolveAll_records_filter (dfetch : String → Nat → FetchOutcome)
    (jid : String) (hnone : resolveDetail dfetch jid = none) :
    ∀ ids : List String,
      (resolveAll dfetch ids).1 =
        (resolveAll dfetch (ids.filter (fun x => !(x == jid)))).1 := by
  intro ids
  induction ids with
  | nil => rfl
  | cons x rest ih =>
    by_cases hx : x = jid
    · subst hx
      simp only [List.filter_cons, beq_self_eq_true, Bool.not_true, if_neg]
      simp only [resolveAll, hnone]
      exact ih
    · have hbeq : (x == jid) = false := beq_eq_false_iff_ne.mpr hx
      simp only [List.filter_cons, hbeq, Bool.not_false, if_pos]
      simp only [resolveAll]
      cases hres : resolveDetail dfetch x with
      | none => simpa using ih
      | some r => simpa using ih

theorem resolveAll_warn_mem (dfetch : String → Nat → FetchOutcome)
    (jid : String) (hnone : resolveDetail dfetch jid = none) :
    ∀ ids : List String, jid ∈ ids →
      LnEvent.warnExhausted jid ∈ (resolveAll dfetch ids).2 := by
  intro ids
  induction ids with
  | nil => intro h; cases h
  | cons x rest ih =>
    intro hmem
    rcases List.mem_cons.mp hmem with heq | htail
    · subst heq
      simp [resolveAll, hnone]
    · simp only [resolveAll]
      cases hres : resolveDetail dfetch x <;> simp [ih htail]

/-- C6: when the detail fetch for one id fails on all allowed attempts,
that id is dropped from the result sequence, a warning-level event is
emitted for it, the run continues (it returns `ok`, never a run-level
error), and the records of the other identifiers are still returned. -/
theorem retries_exhausted_nonfatal (fetch : Nat → PageFetch)
    (dfetch : String → Nat → FetchOutcome) (pages : Nat)
    (ids : List String) (jid : String)
    (hpag : (lnPaginate fetch 0 pages).2 = Except.ok ids)
    (hjid : jid ∈ ids)
    (hfail : ∀ i, i < max_retries → scrape_job_page jid (dfetch jid i) = none) :
    scrape_jobs_linkedin fetch dfetch pages = Except.ok (resolveAll dfetch ids)
      ∧ LnEvent.warnExhausted jid ∈ (resolveAll dfetch ids).2
      ∧ (resolveAll dfetch ids).1 =
          (resolveAll dfetch (ids.filter (fun x => !(x == jid)))).1 := by
  have hnone : resolveDetail dfetch jid = none := by
    unfold resolveDetail
    apply attemptLoop_all_fail
    intro j hj
    simpa using hfail j hj
  refine ⟨?_, ?_, ?_⟩
  · unfold scrape_jobs_linkedin
    rw [hpag]
  · exact resolveAll_warn_mem dfetch jid hnone ids hjid
  · exact resolveAll_records_filter dfetch jid hnone ids

/-- C6 witness: a run discovering ids `1001` and `1002` where every detail
fetch for `1002` fails: the run succeeds, warns about `1002`, and still
returns the record for `1001`. -/
theorem retries_exhausted_nonfatal_witness :
    scrape_jobs_linkedin
        (fun _ => PageFetch.ok
          [LiCard.withDiv (some "urn:li:jobPosting:1001"),
           LiCard.withDiv (some "urn:li:jobPosting:1002")])
        (fun jid _ => if jid = "1001"
          then FetchOutcome.ok
            { titleTag := some "Engineer", orgLink := none, locationTag := none,
              postedTag := none, applicantsTag := none, descriptionParas := none,
              criteriaItems := [] }
          else FetchOutcome.netError)
        1
      = Except.ok
          ([buildJobData "1001"
              { titleTag := some "Engineer", orgLink := none, locationTag := none,
                postedTag := none, applicantsTag := none, descriptionParas := none,
                criteriaItems := [] } none],
           [LnEvent.infoScraped "1001", LnEvent.warnExhausted "1002"])
      ∧ LnEvent.warnExhausted "1002"
          ∈ (resolveAll
              (fun jid _ => if jid = "1001"
                then FetchOutcome.ok
                  { titleTag := some "Engineer", orgLink := none, locationTag := none,
                    postedTag := none, applicantsTag := none, descriptionParas := none,
                    criteriaItems := [] }
                else FetchOutcome.netError)
              ["1001", "1002"]).2 := by
  have h := retries_exhausted_nonfatal
    (fun _ => PageFetch.ok
      [LiCard.withDiv (some "urn:li:jobPosting:1001"),
       LiCard.withDiv (some "urn:li:jobPosting:1002")])
    (fun jid _ => if jid = "1001"
      then FetchOutcome.ok
        { titleTag := some "Engineer", orgLink := none, locationTag := none,
          postedTag := none, applicantsTag := none, descriptionParas := none,
          criteriaItems := [] }
      else FetchOutcome.netError)
    1 ["1001", "1002"] "1002"
    (by rfl) (by decide) (by intro i hi; rfl)
  exact ⟨by rw [h.1]; rfl, h.2.1⟩

theorem processPage_err_500 (p : PageFetch) (s : Nat)
    (h : processPage p = Except.error s) : s = 500 := by
  cases p with
  | raised => simp [processPage] at h; omega
  | httpStatus c => simp [processPage] at h; omega
  | ok lis =>
    simp only [processPage] at h
    cases hc : collectIds lis with
    | error e => rw [hc] at h; simp at h; omega
    | ok ids => rw [hc] at h; simp at h

theorem lnPaginate_err_500 (fetch : Nat → PageFetch) :
    ∀ (k page s : Nat), (lnPaginate fetch page k).2 = Except.error s → s = 500 := by
  intro k
  induction k with
  | zero => intro page s h; simp [lnPaginate] at h
  | succ m ih =>
    intro page s h
    simp only [lnPaginate] at h
    cases hp : processPage (fetch page) with
    | error s' =>
      rw [hp] at h
      simp at h
      rw [← h]
      exact processPage_err_500 _ _ hp
    | ok ids =>
      rw [hp] at h
      simp only at h
      cases hrec : (lnPaginate fetch (page + 1) m).2 with
      | error s' =>
        rw [hrec] at h
        simp [Except.map] at h
        rw [← h]
        exact ih (page + 1) s' hrec
      | ok rest => rw [hrec] at h; simp [Except.map] at h

theorem lnPaginate_ok_all (fetch : Nat → PageFetch) :
    ∀ (k page : Nat) (ids : List String),
      (lnPaginate fetch page k).2 = Except.ok ids →
      ∀ j, page ≤ j → j < page + k → isOkE (processPage (fetch j)) = true := by
  intro k
  induction k with
  | zero => intro page ids _ j hle hlt; omega
  | succ m ih =>
    intro page ids h j hle hlt
    simp only [lnPaginate] at h
    cases hp : processPage (fetch page) with
    | error s => rw [hp] at h; simp at h
    | ok pids =>
      rw [hp] at h
      by_cases hj : j = page
      · subst hj; simp [isOkE, hp]
      · simp only at h
        cases hrec : (lnPaginate fetch (page + 1) m).2 with
        | error s => rw [hrec] at h; simp [Except.map] at h
        | ok rest =>
          exact ih (page + 1) rest hrec j (by omega) (by omega)

theorem lnPaginate_trace (fetch : Nat → PageFetch) :
    ∀ (k page : Nat),
      (∀ j, page ≤ j → j < page + k → isOkE (processPage (fetch j)) = true) →
      (lnPaginate fetch page k).1 = List.range' page k := by
  intro k
  induction k with
  | zero => intro page _; simp [lnPaginate, List.range']
  | succ m ih =>
    intro page hok
    have hp : isOkE (processPage (fetch page)) = true :=
      hok page (Nat.le_refl page) (by omega)
    rcases (isOkE_iff _).mp hp with ⟨ids, hids⟩
    simp only [lnPaginate, hids, List.range']
    rw [ih (page + 1) (by intro j h1 h2; exact hok j (by omega) (by omega))]

/-- C3, amended: a fetch failure while fetching a listing page is fatal
for the LinkedIn board — `scrape_jobs_linkedin` raises an HTTP 500 error
which also escapes the endpoint, and no bundle is returned; for the
Indeed board the exception is caught inside `scrape_indeed`, pagination
stops, and the listings collected so far are returned as a success
response (an empty success response when the first page fetch fails). -/
theorem pagination_failure_contract :
    (∀ (fetch : Nat → PageFetch) (dfetch : String → Nat → FetchOutcome)
       (pages j : Nat), j < pages → isOkE (processPage (fetch j)) = false →
       scrape_jobs_linkedin fetch dfetch pages = Except.error 500
         ∧ scrape_linkedin_jobs fetch dfetch pages = Except.error 500)
      ∧ (∀ ifetch : Nat → IndeedPageFetch, ifetch 0 = IndeedPageFetch.raised →
         scrape_indeed_jobs ifetch =
           { success := true, message := some "Found 0 Indeed jobs",
             count := 0, data := [] }) := by
  constructor
  · intro fetch dfetch pages j hj hfailj
    have herr : scrape_jobs_linkedin fetch dfetch pages = Except.error 500 := by
      unfold scrape_jobs_linkedin
      cases hpag : (lnPaginate fetch 0 pages).2 with
      | error s =>
        have := lnPaginate_err_500 fetch pages 0 s hpag
        simp [this]
      | ok ids =>
        have := lnPaginate_ok_all fetch pages 0 ids hpag j (Nat.zero_le j)
          (by omega)
        rw [this] at hfailj
        cases hfailj
    refine ⟨herr, ?_⟩
    unfold scrape_linkedin_jobs
    rw [herr]
  · intro ifetch h0
    have hlist : scrape_indeed ifetch = [] := by
      unfold scrape_indeed PAGES_TO_SCRAPE scrapeIndeedGo
      rw [h0]
    unfold scrape_indeed_jobs
    rw [hlist]
    rfl

/-- C3 witness: with every listing fetch raising, the LinkedIn run (1
page) returns the 500 error with no bundle, and the Indeed run returns an
empty success response. -/
theorem pagination_failure_contract_witness :
    scrape_jobs_linkedin (fun _ => PageFetch.raised)
        (fun _ _ => FetchOutcome.netError) 1 = Except.error 500
      ∧ scrape_linkedin_jobs (fun _ => PageFetch.raised)
          (fun _ _ => FetchOutcome.netError) 1 = Except.error 500
      ∧ scrape_indeed_jobs (fun _ => IndeedPageFetch.raised) =
          { success := true, message := some "Found 0 Indeed jobs",
            count := 0, data := [] } := by
  have h1 := pagination_failure_contract.1 (fun _ => PageFetch.raised)
    (fun _ _ => FetchOutcome.netError) 1 0 (by decide) (by rfl)
  have h2 := pagination_failure_contract.2 (fun _ => IndeedPageFetch.raised) rfl
  exact ⟨h1.1, h1.2, h2⟩

/-- C3 counterexample: the claim says a listing-page fetch failure
surfaces an error to the caller and returns no partial result bundle for
both boards, but for Indeed a run whose every listing fetch raises still
returns a success response (with zero records) instead of an error. -/
theorem pagination_failure_counterexample :
    (scrape_indeed_jobs (fun _ => IndeedPageFetch.raised)).success = true
      ∧ (scrape_indeed_jobs (fun _ => IndeedPageFetch.raised)).count = 0 :=
  ⟨rfl, rfl⟩

/-- C7, amended: the LinkedIn paginator issues exactly the caller-supplied
number of listing fetches, pages `0 .. N-1`, when every page fetch
succeeds (it does not stop early, not even on a page with no listings);
the Indeed paginator has no caller-supplied page count — it always
iterates the module constant `PAGES_TO_SCRAPE = 1`, so a successful run
issues exactly one listing fetch, page `0`. -/
theorem paginator_page_counts :
    (∀ (fetch : Nat → PageFetch) (pages : Nat),
       (∀ j, j < pages → isOkE (processPage (fetch j)) = true) →
       (lnPaginate fetch 0 pages).1 = List.range pages)
      ∧ (∀ (ifetch : Nat → IndeedPageFetch) cards,
         ifetch 0 = IndeedPageFetch.ok cards →
         indeedPagesFetched ifetch = List.range PAGES_TO_SCRAPE) := by
  constructor
  · intro fetch pages hok
    rw [List.range_eq_range']
    exact lnPaginate_trace fetch pages 0 (by intro j h1 h2; exact hok j (by omega))
  · intro ifetch cards h0
    unfold indeedPagesFetched PAGES_TO_SCRAPE indeedPagesFetchedGo
    rw [h0]
    rfl

/-- C7 witness: a 2-page LinkedIn run whose pages both load (the first one
empty) fetches exactly pages `[0, 1]`; a successful Indeed run fetches
exactly page `[0]`. -/
theorem paginator_page_counts_witness :
    (lnPaginate (fun _ => PageFetch.ok []) 0 2).1 = List.range 2
      ∧ indeedPagesFetched (fun _ => IndeedPageFetch.ok []) =
          List.range PAGES_TO_SCRAPE := by
  constructor
  · exact paginator_page_counts.1 (fun _ => PageFetch.ok []) 2
      (by intro j hj; rfl)
  · exact paginator_page_counts.2 (fun _ => IndeedPageFetch.ok []) [] rfl

/-- C7 counterexample: the claim says the paginator issues exactly the
caller-requested `N` fetches for both boards, but the Indeed request model
carries no page count and `scrape_indeed` always iterates
`PAGES_TO_SCRAPE = 1` pages: a run on behalf of a caller requesting 3
pages still issues exactly one fetch. -/
theorem paginator_page_counts_counterexample :
    indeedPagesFetched (fun _ => IndeedPageFetch.ok []) = List.range PAGES_TO_SCRAPE
      ∧ indeedPagesFetched (fun _ => IndeedPageFetch.ok []) ≠ List.range 3 := by
  exact ⟨rfl, by decide⟩

/-- C5, amended: for every run that does not fail, the value returned to
the caller is a response containing the ordered records and a single
count equal to the number of resolved records; discovered and dropped
counts are not part of the response, which is a function of the resolved
records alone, so a caller cannot distinguish a partial success from a
full one. -/
theorem bundle_single_count :
    (∀ (fetch : Nat → PageFetch) (dfetch : String → Nat → FetchOutcome)
       (pages : Nat) (r : StandardResponse LnRecord),
       scrape_linkedin_jobs fetch dfetch pages = Except.ok r →
       r.success = true ∧ r.count = r.data.length)
      ∧ (∀ (fetch fetch' : Nat → PageFetch)
         (dfetch dfetch' : String → Nat → FetchOutcome) (pages pages' : Nat)
         (ids ids' : List String),
         (lnPaginate fetch 0 pages).2 = Except.ok ids →
         (lnPaginate fetch' 0 pages').2 = Except.ok ids' →
         (resolveAll dfetch ids).1 = (resolveAll dfetch' ids').1 →
         scrape_linkedin_jobs fetch dfetch pages =
           scrape_linkedin_jobs fetch' dfetch' pages') := by
  constructor
  · intro fetch dfetch pages r h
    unfold scrape_linkedin_jobs scrape_jobs_linkedin at h
    cases hpag : (lnPaginate fetch 0 pages).2 with
    | error s => rw [hpag] at h; simp at h
    | ok ids =>
      rw [hpag] at h
      simp only [Except.ok.injEq] at h
      rw [← h]
      simp
  · intro fetch fetch' dfetch dfetch' pages pages' ids ids' hpag hpag' hrecs
    unfold scrape_linkedin_jobs scrape_jobs_linkedin
    rw [hpag, hpag']
    simp only [hrecs]

/-- C5 witness: two concrete runs with the same resolved records — one
discovering one id and resolving it, one discovering two ids and dropping
the second — produce identical responses. -/
theorem bundle_single_count_witness :
    scrape_linkedin_jobs oneIdListing only1001Fetcher 1 =
      scrape_linkedin_jobs twoIdListing only1001Fetcher 1 :=
  bundle_single_count.2 oneIdListing twoIdListing only1001Fetcher only1001Fetcher
    1 1 ["1001"] ["1001", "1002"] rfl rfl rfl

/-- C5 counterexample: the claim says the returned bundle carries three
counts (discovered, resolved, dropped) so that partial and full success
can be told apart; but a full run (1 discovered, 1 resolved, 0 dropped)
and a partial run (2 discovered, 1 resolved, 1 dropped) return the very
same value to the caller, whose only count is the resolved length. -/
theorem bundle_single_count_counterexample :
    (lnPaginate oneIdListing 0 1).2 = Except.ok ["1001"]
      ∧ (lnPaginate twoIdListing 0 1).2 = Except.ok ["1001", "1002"]
      ∧ (resolveAll only1001Fetcher ["1001", "1002"]).1.length = 1
      ∧ scrape_linkedin_jobs oneIdListing only1001Fetcher 1 =
          scrape_linkedin_jobs twoIdListing only1001Fetcher 1 :=
  ⟨rfl, rfl, rfl, rfl⟩

/-- C9, amended: the interaction simulation performs a bounded random
number of cursor-movement iterations (`randint(2, 4)`) and scroll
iterations (`randint(3, 5)`), and a failure inside any loop iteration is
swallowed — whenever the initial cursor movement succeeds, the simulation
completes all iterations and returns normally no matter which iteration
bodies fail; however, the initial cursor movement before the loops is not
inside any `try`, so an exception there escalates to the caller. -/
theorem interaction_failures_swallowed
    (initialMove : Except Unit Unit)
    (moveIters scrollIters : List (Except Unit Unit))
    (hinit : isOkE initialMove = true)
    (hm1 : 2 ≤ moveIters.length) (hm2 : moveIters.length ≤ 4)
    (hs1 : 3 ≤ scrollIters.length) (hs2 : scrollIters.length ≤ 5) :
    human_like_interaction initialMove moveIters scrollIters =
        Except.ok (moveIters.length, scrollIters.length)
      ∧ 2 ≤ moveIters.length ∧ moveIters.length ≤ 4
      ∧ 3 ≤ scrollIters.length ∧ scrollIters.length ≤ 5 := by
  rcases (isOkE_iff initialMove).mp hinit with ⟨u, hu⟩
  subst hu
  exact ⟨rfl, hm1, hm2, hs1, hs2⟩

/-- C9 witness: with every single loop iteration failing, the simulation
still returns normally with all iterations performed. -/
theorem interaction_failures_swallowed_witness :
    human_like_interaction (Except.ok ())
        [Except.error (), Except.error ()]
        [Except.error (), Except.error (), Except.error ()] =
      Except.ok (2, 3) :=
  (interaction_failures_swallowed (Except.ok ())
    [Except.error (), Except.error ()]
    [Except.error (), Except.error (), Except.error ()]
    rfl (by decide) (by decide) (by decide) (by decide)).1

/-- C9 counterexample: the claim says no exception raised during the
interaction sequence ever escalates to the caller, but the initial
`move_by_offset(10, 10).perform()` is outside every `try` block: when it
raises, the simulation propagates the exception. -/
theorem interaction_failures_swallowed_counterexample :
    human_like_interaction (Except.error ())
        [Except.ok (), Except.ok ()]
        [Except.ok (), Except.ok (), Except.ok ()] =
      Except.error () := rfl

/-- C8: for a filter set in which only the required keyword is set (all
other fields at their defaults), the query built for each board contains
the keyword verbatim URL-encoded (the `q=`/`keywords=` component of the
encoded query string) and contains no query parameter for any filter key
whose value is absent (`l`, `explvl`, `remote` for Indeed; `location`,
`remote`, `experience_level`, `job_type`, `time_posted` for LinkedIn). -/
theorem keyword_query_building :
    (∀ title : String,
       ("q", title) ∈ indeedFilters (mkIndeedParams title)
         ∧ (∀ v : String,
             ("l", v) ∉ indeedFilters (mkIndeedParams title)
               ∧ ("explvl", v) ∉ indeedFilters (mkIndeedParams title)
               ∧ ("remote", v) ∉ indeedFilters (mkIndeedParams title))
         ∧ ("q=" ++ quote_plus title) ∈ indeedQueryComponents (mkIndeedParams title) 0
         ∧ indeedPageUrl (mkIndeedParams title) 0 =
             BASE_URL ++ "?" ++
               String.intercalate "&" (indeedQueryComponents (mkIndeedParams title) 0))
      ∧ (∀ (kw : String) (page : Nat),
         ("keywords", kw) ∈ requestsEncode (linkedinRequestParams (mkLinkedInParams kw) page)
           ∧ (∀ v : String,
               ("location", v) ∉ requestsEncode (linkedinRequestParams (mkLinkedInParams kw) page)
                 ∧ ("remote", v) ∉ requestsEncode (linkedinRequestParams (mkLinkedInParams kw) page)
                 ∧ ("experience_level", v) ∉
                     requestsEncode (linkedinRequestParams (mkLinkedInParams kw) page)
                 ∧ ("job_type", v) ∉ requestsEncode (linkedinRequestParams (mkLinkedInParams kw) page)
                 ∧ ("time_posted", v) ∉
                     requestsEncode (linkedinRequestParams (mkLinkedInParams kw) page))
           ∧ ("keywords=" ++ quote_plus kw) ∈
               linkedinQueryComponents (mkLinkedInParams kw) page) := by
  constructor
  · intro title
    have hfil : indeedFilters (mkIndeedParams title) =
        [("q", title), ("fromage", "7"), ("radius", "50"),
         ("jt", "fulltime"), ("sort", "date")] := rfl
    refine ⟨?_, ?_, ?_, rfl⟩
    · rw [hfil]; exact List.mem_cons_self _ _
    · intro v
      rw [hfil]
      refine ⟨?_, ?_, ?_⟩ <;> simp
    · have henc : ("q=" ++ quote_plus title) = encPair ("q", title) := rfl
      rw [henc]
      have hcomp : indeedQueryComponents (mkIndeedParams title) 0 =
          (([("q", title), ("fromage", "7"), ("radius", "50"),
             ("jt", "fulltime"), ("sort", "date")] ++ [("start", "0")]).map encPair) := by
        unfold indeedQueryComponents indeedPagePairs
        rw [hfil]
        rfl
      rw [hcomp]
      exact List.mem_map_of_mem encPair (by simp)
  · intro kw page
    have hfil : requestsEncode (linkedinRequestParams (mkLinkedInParams kw) page) =
        [("keywords", kw), ("pages", toString (1 : Nat)),
         ("start", toString (page * 25))] := rfl
    refine ⟨?_, ?_, ?_⟩
    · rw [hfil]; exact List.mem_cons_self _ _
    · intro v
      rw [hfil]
      refine ⟨?_, ?_, ?_, ?_, ?_⟩ <;> simp
    · have henc : ("keywords=" ++ quote_plus kw) = encPair ("keywords", kw) := rfl
      have hcomp : linkedinQueryComponents (mkLinkedInParams kw) page =
          ([("keywords", kw), ("pages", toString (1 : Nat)),
            ("start", toString (page * 25))].map encPair) := by
        unfold linkedinQueryComponents
        rw [hfil]
      rw [henc, hcomp]
      exact List.mem_map_of_mem encPair (by simp)

theorem isOkE_false_unit (e : Except Unit α) (h : isOkE e = false) :
    e = Except.error () := by
  cases e with
  | ok a => simp [isOkE] at h
  | error u => cases u; rfl

theorem cardStep_preserves (card : IndeedCard) (d : IndeedDetails) :
    (cardStep card d).company = d.company
      ∧ (cardStep card d).location = d.location
      ∧ (cardStep card d).salary = d.salary
      ∧ (cardStep card d).posted = d.posted
      ∧ (cardStep card d).company_rating = d.company_rating
      ∧ (cardStep card d).job_type = d.job_type
      ∧ (cardStep card d).shift = d.shift
      ∧ (cardStep card d).benefits = d.benefits
      ∧ (cardStep card d).is_remote = d.is_remote
      ∧ (cardStep card d).is_urgent = d.is_urgent
      ∧ (cardStep card d).job_snippet = d.job_snippet
      ∧ (cardStep card d).experience_level = d.experience_level
      ∧ (cardStep card d).work_model = d.work_model
      ∧ (cardStep card d).image_link = d.image_link
      ∧ (cardStep card d).apply_link = d.apply_link := by
  cases h : card.jobLink <;> simp [cardStep, h]

theorem afterNav_untouched (soup : IndeedDetailDoc) (d : IndeedDetails) :
    (afterNav soup d).posted = d.posted
      ∧ (afterNav soup d).company_rating = d.company_rating
      ∧ (afterNav soup d).experience_level = d.experience_level
      ∧ (afterNav soup d).work_model = d.work_model
      ∧ (afterNav soup d).is_urgent = d.is_urgent := by
  unfold afterNav
  cases companyVal soup <;> cases locationVal soup <;> cases imageVal soup <;>
    cases benefitsVal soup <;> cases applyVal soup <;> simp

/-- C1, amended: extraction is fault-isolated against MISSING locators —
when no extraction raises, the Indeed detail extractor behaves exactly as
the per-field independent extractor (each missing locator degrades only
its own field to its sentinel), and the LinkedIn detail extractor builds
the full record with `None` for each missing locator.  But a RAISING
extraction is not isolated: in the Indeed extractor all extractions after
the raising one are skipped (their fields keep the template defaults),
and in the LinkedIn extractor the whole record becomes `None`. -/
theorem field_extraction_isolation :
    (∀ (card : IndeedCard) (soup : IndeedDetailDoc), stepsOk soup = true →
       get_job_details card (Except.ok soup) = specExtract card soup)
      ∧ (∀ (jid : String) (soup : LinkedInDoc), lnNoRaise soup = true →
         scrape_job_page jid (FetchOutcome.ok soup) =
           some (buildJobData jid soup (companyUrlOf soup))) := by
  constructor
  · intro card soup hok
    unfold stepsOk at hok
    simp only [Bool.and_eq_true] at hok
    obtain ⟨⟨⟨⟨h1, h2⟩, h3⟩, h4⟩, h5⟩ := hok
    rcases (isOkE_iff _).mp h1 with ⟨c, hc⟩
    rcases (isOkE_iff _).mp h2 with ⟨lv, hl⟩
    rcases (isOkE_iff _).mp h3 with ⟨iv, hi⟩
    rcases (isOkE_iff _).mp h4 with ⟨bv, hb⟩
    rcases (isOkE_iff _).mp h5 with ⟨av, ha⟩
    simp only [get_job_details, afterNav, specExtract, hc, hl, hi, hb, ha]
  · intro jid soup hok
    unfold lnNoRaise at hok
    unfold scrape_job_page companyUrlStep companyUrlOf
    cases horg : soup.orgLink with
    | none => simp [horg]
    | some org =>
      rw [horg] at hok
      rcases Option.isSome_iff_exists.mp hok with ⟨h, hh⟩
      simp [horg, hh]

/-- C1 witness: on a document with several locators missing (org link,
location, posted, applicants, description) the LinkedIn extractor still
returns a record, each missing field independently absent; on an Indeed
document with no raising step the extractor equals the independent
per-field extractor. -/
theorem field_extraction_isolation_witness :
    scrape_job_page "1001" (FetchOutcome.ok docEngineer) =
        some (buildJobData "1001" docEngineer (companyUrlOf docEngineer))
      ∧ get_job_details cardDev (Except.ok soupNoCompany) =
          specExtract cardDev soupNoCompany :=
  ⟨field_extraction_isolation.2 "1001" docEngineer rfl,
   field_extraction_isolation.1 cardDev soupNoCompany rfl⟩

/-- C1 counterexample: a detail document whose location extraction raises
(`IndexError` on a title without `" - "`) while its og:image locator is
present and matching: the code leaves `image_link` at the template
default — the image extraction never runs — whereas the claim says every
other field of the record still runs and returns its value (the
independent extractor returns the image url). -/
theorem field_extraction_isolation_counterexample :
    (get_job_details cardDev (Except.ok soupLocRaise)).image_link = some ""
      ∧ soupLocRaise.ogImage = some (some "https://img.example/logo.png")
      ∧ (specExtract cardDev soupLocRaise).image_link =
          some "https://img.example/logo.png"
      ∧ (get_job_details cardDev (Except.ok soupLocRaise)).image_link ≠
          (specExtract cardDev soupLocRaise).image_link := by
  refine ⟨rfl, rfl, rfl, ?_⟩
  decide

/-- C10, amended: the Indeed detail extractor is total — it never raises
past its boundary and always returns a record containing the entire fixed
key set — and a key whose extraction DID NOT RUN keeps its template
default: when the detail navigation raises, every key except the three
card keys keeps its template default; when an extraction raises, the keys
of all later extractions keep their template defaults; and the five keys
the code never assigns (`posted`, `company_rating`, `experience_level`,
`work_model`, `is_urgent`) always keep their template defaults.  But a
key whose extraction RAN AND DID NOT MATCH is bound to a per-field
sentinel (`None` for company/location/image_link, `"Not mentioned"`,
`"Not Provided"`, `"Not found"`), not to its template default. -/
theorem indeed_extractor_totality :
    (∀ card : IndeedCard,
       get_job_details card (Except.error ()) = cardStep card detailsTemplate)
      ∧ (∀ (card : IndeedCard) (soup : IndeedDetailDoc),
         isOkE (companyVal soup) = true → isOkE (locationVal soup) = false →
         (get_job_details card (Except.ok soup)).image_link = detailsTemplate.image_link
           ∧ (get_job_details card (Except.ok soup)).benefits = detailsTemplate.benefits
           ∧ (get_job_details card (Except.ok soup)).apply_link = detailsTemplate.apply_link
           ∧ (get_job_details card (Except.ok soup)).job_snippet = detailsTemplate.job_snippet
           ∧ (get_job_details card (Except.ok soup)).salary = detailsTemplate.salary)
      ∧ (∀ (card : IndeedCard) (nav : Except Unit IndeedDetailDoc),
         (get_job_details card nav).posted = detailsTemplate.posted
           ∧ (get_job_details card nav).company_rating = detailsTemplate.company_rating
           ∧ (get_job_details card nav).experience_level = detailsTemplate.experience_level
           ∧ (get_job_details card nav).work_model = detailsTemplate.work_model
           ∧ (get_job_details card nav).is_urgent = detailsTemplate.is_urgent) := by
  refine ⟨fun card => rfl, ?_, ?_⟩
  · intro card soup hc hl
    rcases (isOkE_iff _).mp hc with ⟨c, hcv⟩
    have hlv : locationVal soup = Except.error () := isOkE_false_unit _ hl
    obtain ⟨hco, hlo, hsa, hpo, hcr, hjt, hsh, hbe, hir, hiu, hjs, hel, hwm,
      hil, hap⟩ := cardStep_preserves card detailsTemplate
    simp only [get_job_details, afterNav, hcv, hlv]
    exact ⟨hil, hbe, hap, hjs, hsa⟩
  · intro card nav
    obtain ⟨hco, hlo, hsa, hpo, hcr, hjt, hsh, hbe, hir, hiu, hjs, hel, hwm,
      hil, hap⟩ := cardStep_preserves card detailsTemplate
    cases nav with
    | error u =>
      exact ⟨hpo, hcr, hel, hwm, hiu⟩
    | ok soup =>
      obtain ⟨ga, gb, gc, gd, ge⟩ :=
        afterNav_untouched soup (cardStep card detailsTemplate)
      simp only [get_job_details]
      exact ⟨ga.trans hpo, gb.trans hcr, gc.trans hel, gd.trans hwm,
             ge.trans hiu⟩

/-- C10 witness: on the document whose location extraction raises, the
later extractions (image, benefits, apply link, snippet, salary) keep
their template defaults, and the never-assigned keys keep theirs. -/
theorem indeed_extractor_totality_witness :
    ((get_job_details cardDev (Except.ok soupLocRaise)).benefits =
          detailsTemplate.benefits
        ∧ (get_job_details cardDev (Except.ok soupLocRaise)).apply_link =
            detailsTemplate.apply_link)
      ∧ (get_job_details cardDev (Except.ok soupLocRaise)).work_model = "On-site" := by
  have h := indeed_extractor_totality.2.1 cardDev soupLocRaise rfl rfl
  have h2 := indeed_extractor_totality.2.2 cardDev (Except.ok soupLocRaise)
  exact ⟨⟨h.2.1, h.2.2.1⟩, h2.2.2.2.1⟩

/-- C10 counterexample: the claim says each key is bound to its template
default whenever its extraction did not match; but on a document missing
the og:description meta the company extraction runs, does not match, and
binds `company` to `None` — not to the template default `''`. -/
theorem indeed_extractor_totality_counterexample :
    (get_job_details cardNoLink (Except.ok soupNoCompany)).company = none
      ∧ detailsTemplate.company = some ""
      ∧ (get_job_details cardNoLink (Except.ok soupNoCompany)).company ≠
          detailsTemplate.company := by
  refine ⟨rfl, rfl, ?_⟩
  decide

theorem collectIds_nonempty :
    ∀ (lis : List LiCard) (ids : List String), collectIds lis = Except.ok ids →
      ∀ jid ∈ ids, jid ≠ "" := by
  intro lis
  induction lis with
  | nil =>
    intro ids h jid hmem
    simp only [collectIds, Except.ok.injEq] at h
    rw [← h] at hmem
    cases hmem
  | cons card rest ih =>
    intro ids h jid hmem
    cases card with
    | noDiv => simp [collectIds] at h
    | withDiv u =>
      simp only [collectIds] at h
      cases hrec : collectIds rest with
      | error e => rw [hrec] at h; simp at h
      | ok rids =>
        rw [hrec] at h
        simp only [Except.ok.injEq] at h
        by_cases hj : lastColonSeg (u.getD "") = ""
        · rw [if_pos hj] at h
          exact ih rids hrec jid (h ▸ hmem)
        · rw [if_neg hj] at h
          rw [← h] at hmem
          rcases List.mem_cons.mp hmem with heq | htail
          · rw [heq]; exact hj
          · exact ih rids hrec jid htail

theorem lnPaginate_ids_nonempty (fetch : Nat → PageFetch) :
    ∀ (k page : Nat) (ids : List String),
      (lnPaginate fetch page k).2 = Except.ok ids → ∀ jid ∈ ids, jid ≠ "" := by
  intro k
  induction k with
  | zero =>
    intro page ids h jid hmem
    simp only [lnPaginate, Except.ok.injEq] at h
    rw [← h] at hmem
    cases hmem
  | succ m ih =>
    intro page ids h jid hmem
    simp only [lnPaginate] at h
    cases hp : processPage (fetch page) with
    | error s => rw [hp] at h; simp at h
    | ok pids =>
      rw [hp] at h
      simp only at h
      cases hrec : (lnPaginate fetch (page + 1) m).2 with
      | error s => rw [hrec] at h; simp [Except.map] at h
      | ok rids =>
        rw [hrec] at h
        simp only [Except.map, Except.ok.injEq] at h
        rw [← h] at hmem
        rcases List.mem_append.mp hmem with hleft | hright
        · have hpid : ∃ lis, fetch page = PageFetch.ok lis
              ∧ collectIds lis = Except.ok pids := by
            cases hf : fetch page with
            | raised => rw [hf] at hp; simp [processPage] at hp
            | httpStatus c => rw [hf] at hp; simp [processPage] at hp
            | ok lis =>
              rw [hf] at hp
              simp only [processPage] at hp
              cases hc : collectIds lis with
              | error e => rw [hc] at hp; simp at hp
              | ok ids2 =>
                rw [hc] at hp
                simp only [Except.ok.injEq] at hp
                exact ⟨lis, rfl, by rw [hc, hp]⟩
          rcases hpid with ⟨lis, _, hcoll⟩
          exact collectIds_nonempty lis pids hcoll jid hleft
        · exact ih (page + 1) rids hrec jid hright

theorem noCollision_filter (soup : LinkedInDoc) (h : noCollision soup = true)
    (key : String) (hk : key = "platform" ∨ key = "job_id" ∨ key = "url") :
    (get_job_criteria soup.criteriaItems).filter (fun kv => kv.1 == key) = [] := by
  rw [List.filter_eq_nil_iff]
  intro kv hkv
  simp only [noCollision, criteriaKeys, Bool.not_eq_true', List.any_eq_false,
    List.mem_map] at h
  have hkey := h kv.1 ⟨kv, hkv, rfl⟩
  intro hbeq
  have hkv1 : kv.1 = key := by simpa using hbeq
  apply hkey
  rcases hk with hp | hj | hu
  · rw [hkv1, hp]; simp
  · rw [hkv1, hj]; simp
  · rw [hkv1, hu]; simp

/-- C4, amended: for LinkedIn, every successfully resolved record has
non-empty core fields — every discovered identifier is a non-empty
string, and (provided no criteria heading on the page normalizes to the
dict keys `platform`, `job_id` or `url`, which `dict.update` would let
override them) the endpoint record carries `platform = "LinkedIn"`,
`job_id` equal to the identifier and the non-empty detail url.  For
Indeed, `platform` is always the non-empty `"Indeed"`, but the identifier
and url of a record are NOT guaranteed non-empty (see the
counterexample). -/
theorem resolved_record_core_fields :
    (∀ (fetch : Nat → PageFetch) (k page : Nat) (ids : List String),
       (lnPaginate fetch page k).2 = Except.ok ids → ∀ jid ∈ ids, jid ≠ "")
      ∧ (∀ (jid : String) (soup : LinkedInDoc) (rec : LnRecord),
         scrape_job_page jid (FetchOutcome.ok soup) = some rec →
         noCollision soup = true → jid ≠ "" →
         pyGet (addPlatform "LinkedIn" rec) "platform" = some (some "LinkedIn")
           ∧ pyGet (addPlatform "LinkedIn" rec) "job_id" = some (some jid)
           ∧ pyGet (addPlatform "LinkedIn" rec) "url" =
               some (some ("https://www.linkedin.com/jobs/view/" ++ jid))
           ∧ ("https://www.linkedin.com/jobs/view/" ++ jid) ≠ "")
      ∧ (∀ (jobs : List IndeedDetails) (e : IndeedApiJob),
         e ∈ indeedResponseData jobs → e.platform = "Indeed") := by
  refine ⟨lnPaginate_ids_nonempty, ?_, ?_⟩
  · intro jid soup rec hscrape hnc hjid
    simp only [scrape_job_page] at hscrape
    cases hcu : companyUrlStep soup with
    | error e => rw [hcu] at hscrape; simp at hscrape
    | ok cu =>
      rw [hcu] at hscrape
      simp only [Option.some.injEq] at hscrape
      rw [← hscrape]
      have hfp := noCollision_filter soup hnc "platform" (Or.inl rfl)
      have hfj := noCollision_filter soup hnc "job_id" (Or.inr (Or.inl rfl))
      have hfu := noCollision_filter soup hnc "url" (Or.inr (Or.inr rfl))
      have hurl : ("https://www.linkedin.com/jobs/view/" ++ jid) ≠ "" := by
        intro he
        have hlen := congrArg String.length he
        have h35 : ("https://www.linkedin.com/jobs/view/" : String).length = 35 := rfl
        have h0 : ("" : String).length = 0 := rfl
        rw [String.length_append, h35, h0] at hlen
        omega
      refine ⟨?_, ?_, ?_, hurl⟩ <;>
        cases hd : soup.descriptionParas <;>
          simp [pyGet, addPlatform, buildJobData, hd, List.filter_append,
            hfp, hfj, hfu]
  · intro jobs e he
    simp only [indeedResponseData, List.mem_map] at he
    rcases he with ⟨j, _, hj⟩
    rw [← hj]

/-- C4 witness: a discovered id is non-empty; the resolved record for id
`1001` on a collision-free document has platform `LinkedIn`, job_id
`1001` and the detail url; an Indeed endpoint entry has platform
`Indeed`. -/
theorem resolved_record_core_fields_witness :
    ("1001" : String) ≠ ""
      ∧ pyGet (addPlatform "LinkedIn"
          (buildJobData "1001" docEngineer (companyUrlOf docEngineer))) "job_id"
          = some (some "1001")
      ∧ (({ platform := "Indeed", detail := detailsTemplate } : IndeedApiJob).platform
          = "Indeed") := by
  refine ⟨?_, ?_, ?_⟩
  · exact resolved_record_core_fields.1 twoIdListing 1 0 ["1001", "1002"]
      rfl "1001" (by decide)
  · exact (resolved_record_core_fields.2.1 "1001" docEngineer
      (buildJobData "1001" docEngineer (companyUrlOf docEngineer))
      rfl rfl (by decide)).2.1
  · exact resolved_record_core_fields.2.2 [detailsTemplate]
      { platform := "Indeed", detail := detailsTemplate }
      (by simp [indeedResponseData])

/-- C4 counterexample: an Indeed job card without the `jcs-JobTitle` link
resolves to a record with empty `job_id` and empty `job_url`, and that
record is still returned in the result sequence (wrapped with platform
`Indeed` by the endpoint), refuting the claim that every resolved record
has non-empty identifier and URL on both boards. -/
theorem resolved_record_core_fields_counterexample :
    scrape_indeed noLinkPage = [detailsTemplate]
      ∧ detailsTemplate.job_id = ""
      ∧ detailsTemplate.job_url = ""
      ∧ (scrape_indeed_jobs noLinkPage).data =
          [{ platform := "Indeed", detail := detailsTemplate }] :=
  ⟨rfl, rfl, rfl, rfl⟩
